import Mathlib

/-!
# Verification of the guardian-layer triage-and-proposal pipeline

Shallow embedding of the four tools of the repository:
* `tools/guardian_intake.py`   — signal → care-case synthesis (gate, action,
  constraints, stable case id) and the JSON case store;
* `tools/guardian_propose_patch.py` — the idempotent proposal controller
  driving an external git/review backend;
* `tools/guardian_validate_pr.py`   — the receiving-side structural validator.

Python floats carrying the tension score are embedded as rationals `ℚ`
(all comparisons in the source are order comparisons against the literals
0.40 and 0.75), machine-word arithmetic in the SHA-1 core is `Nat` with
explicit `% 2 ^ 32`, Python dict `.get` on optional fields is `Option`,
and `SystemExit` propagation is the `Except` monad.
-/

namespace Guardian

/-! ## guardian_intake.py -/

/-- Embeds `gate_from_tension` (guardian_intake.py lines 61–66).  The float
literals 0.40 and 0.75 are the rationals 40/100 and 75/100, written with
`mkRat` so that the comparison evaluates in the kernel. -/
def gate_from_tension (t : ℚ) : String :=
  if t < mkRat 40 100 then "green"
  else if t < mkRat 75 100 then "yellow"
  else "red"

/-- Embeds `recommended_action` (guardian_intake.py lines 69–75). -/
def recommended_action (gate kind severity : String) : String :=
  if gate = "green" then "propose_patch"
  else if gate = "red" ∧ kind = "web-perf" ∧ severity = "fail" then "rollback"
  else "human_review"

/-- The `system` object of a signal (name/env/version identity, copied
verbatim into the care-case). -/
structure SystemInfo where
  name : String
  env : String
  version : String
deriving Repr, DecidableEq

/-- An inbound signal document.  `kind`, `severity` and `trace_ref` are
read in the source with `dict.get` and a default, hence `Option`. -/
structure Signal where
  id : String
  system : SystemInfo
  kind : Option String
  severity : Option String
  tension : ℚ
  summary : String
  trace_ref : Option String
deriving Repr, DecidableEq

/-- Embeds `constraints_for` (guardian_intake.py lines 78–84). -/
def constraints_for (signal : Signal) (gate : String) : List String :=
  let base := ["reversibility-first", "minimal-intervention", "explainability",
    "human-seniority"]
  let base := if gate ≠ "green" then base ++ ["canary-required"] else base
  if signal.kind = some "security" then base ++ ["no-secrets"] else base

/-- One entry of the care-case `signals` list: `{"signal_id": ...}`. -/
structure SignalRef where
  signal_id : String
deriving Repr, DecidableEq

/-- The `proposed_transition` record attached to web-perf cases. -/
structure ProposedTransition where
  intent : String
  scope : String
  reversibility : String
  verification : List String
  trace_ref : String
deriving Repr, DecidableEq

/-- A generated care-case document (guardian_intake.py lines 95–107 plus the
optional web-perf fields of lines 109–123). -/
structure CareCase where
  schema_version : String
  id : String
  created_at : String
  system : SystemInfo
  policy_gate : String
  recommended_action : String
  tension : ℚ
  summary : String
  constraints : List String
  signals : List SignalRef
  status : String
  root_cause_hypothesis : Option String
  proposed_transition : Option ProposedTransition
deriving Repr, DecidableEq

/-! ### SHA-1 and UUIDv5 (the `uuid.uuid5` call of `_derive_case_id`)

Machine words are `Nat` taken modulo `2 ^ 32`; bytes are `Nat` below 256. -/

/-- 32-bit left rotation on a word already reduced mod `2 ^ 32`. -/
def rotl32 (x s : Nat) : Nat :=
  ((x <<< s) % 2 ^ 32) ||| (x >>> (32 - s))

/-- Big-endian 32-bit words from a byte list (groups of four). -/
def bytesToWords : List Nat → List Nat
  | b0 :: b1 :: b2 :: b3 :: rest =>
      ((b0 <<< 24) ||| (b1 <<< 16) ||| (b2 <<< 8) ||| b3) :: bytesToWords rest
  | _ => []

/-- Big-endian byte expansion of a 32-bit word. -/
def wordToBytes (w : Nat) : List Nat :=
  [(w >>> 24) % 256, (w >>> 16) % 256, (w >>> 8) % 256, w % 256]

/-- Extend the 16 schedule words of one chunk to 80 (fuel-driven so the
definition reduces in the kernel). -/
def sha1Extend : Nat → Array Nat → Array Nat
  | 0, ws => ws
  | n + 1, ws =>
      let i := ws.size
      let w := rotl32 ((ws.getD (i - 3) 0) ^^^ (ws.getD (i - 8) 0) ^^^
        (ws.getD (i - 14) 0) ^^^ (ws.getD (i - 16) 0)) 1
      sha1Extend n (ws.push w)

/-- One SHA-1 round: `i` is the round index, `w` the schedule word. -/
def sha1Round (st : Nat × Nat × Nat × Nat × Nat) (i w : Nat) :
    Nat × Nat × Nat × Nat × Nat :=
  let (a, b, c, d, e) := st
  let fk : Nat × Nat :=
    if i < 20 then ((b &&& c) ||| ((b ^^^ 0xFFFFFFFF) &&& d), 0x5A827999)
    else if i < 40 then (b ^^^ c ^^^ d, 0x6ED9EBA1)
    else if i < 60 then ((b &&& c) ||| (b &&& d) ||| (c &&& d), 0x8F1BBCDC)
    else (b ^^^ c ^^^ d, 0xCA62C1D6)
  let temp := (rotl32 a 5 + fk.1 + e + fk.2 + w) % 2 ^ 32
  (temp, a, rotl32 b 30, c, d)

/-- Process one 64-byte chunk against the running hash state. -/
def sha1Chunk (h : Nat × Nat × Nat × Nat × Nat) (chunk : List Nat) :
    Nat × Nat × Nat × Nat × Nat :=
  let ws := sha1Extend 64 (Array.mk (bytesToWords chunk))
  let (a, b, c, d, e) :=
    (List.range 80).foldl (fun st i => sha1Round st i (ws.getD i 0)) h
  ((h.1 + a) % 2 ^ 32, (h.2.1 + b) % 2 ^ 32, (h.2.2.1 + c) % 2 ^ 32,
    (h.2.2.2.1 + d) % 2 ^ 32, (h.2.2.2.2 + e) % 2 ^ 32)

/-- Split a byte list into 64-byte chunks (fuel-driven). -/
def chunks64Aux : Nat → List Nat → List (List Nat)
  | 0, _ => []
  | _, [] => []
  | fuel + 1, l => l.take 64 :: chunks64Aux fuel (l.drop 64)

def chunks64 (l : List Nat) : List (List Nat) := chunks64Aux l.length l

/-- Merkle–Damgård padding: `0x80`, zeros to 56 mod 64, 8-byte big-endian
bit length. -/
def sha1Pad (msg : List Nat) : List Nat :=
  let bitLen := 8 * msg.length
  let zeros := (56 + 64 - (msg.length + 1) % 64) % 64
  msg ++ [0x80] ++ List.replicate zeros 0 ++
    (List.range 8).map (fun i => (bitLen >>> (8 * (7 - i))) % 256)

/-- SHA-1 digest (20 bytes) of a byte list. -/
def sha1 (msg : List Nat) : List Nat :=
  let init : Nat × Nat × Nat × Nat × Nat :=
    (0x67452301, 0xEFCDAB89, 0x98BADCFE, 0x10325476, 0xC3D2E1F0)
  let (h0, h1, h2, h3, h4) := (chunks64 (sha1Pad msg)).foldl sha1Chunk init
  wordToBytes h0 ++ wordToBytes h1 ++ wordToBytes h2 ++ wordToBytes h3 ++
    wordToBytes h4

/-- UTF-8 encoding of one code point (what the Python `str.encode` method does to
each character of the uuid5 name). -/
def utf8EncodeChar (c : Char) : List Nat :=
  let n := c.toNat
  if n < 0x80 then [n]
  else if n < 0x800 then
    [0xC0 ||| (n >>> 6), 0x80 ||| (n &&& 0x3F)]
  else if n < 0x10000 then
    [0xE0 ||| (n >>> 12), 0x80 ||| ((n >>> 6) &&& 0x3F), 0x80 ||| (n &&& 0x3F)]
  else
    [0xF0 ||| (n >>> 18), 0x80 ||| ((n >>> 12) &&& 0x3F),
      0x80 ||| ((n >>> 6) &&& 0x3F), 0x80 ||| (n &&& 0x3F)]

def utf8Encode (s : String) : List Nat := (s.data.map utf8EncodeChar).flatten

/-- Lower-case hex digit of a nibble. -/
def hexChar (n : Nat) : Char :=
  if n < 10 then Char.ofNat (48 + n) else Char.ofNat (87 + n)

def byteToHex (b : Nat) : List Char := [hexChar (b / 16), hexChar (b % 16)]

def bytesToHex (bs : List Nat) : String := ⟨(bs.map byteToHex).flatten⟩

/-- Canonical 8-4-4-4-12 rendering of 16 uuid bytes. -/
def uuidFormat (bs : List Nat) : String :=
  bytesToHex (bs.take 4) ++ "-" ++ bytesToHex ((bs.drop 4).take 2) ++ "-" ++
    bytesToHex ((bs.drop 6).take 2) ++ "-" ++
    bytesToHex ((bs.drop 8).take 2) ++ "-" ++ bytesToHex (bs.drop 10)

/-- Embeds `uuid.uuid5(namespace, name)`: SHA-1 of namespace bytes ++ UTF-8 name,
truncated to 16 bytes with version nibble 5 and RFC 4122 variant bits. -/
def uuid5 (nsBytes : List Nat) (name : String) : String :=
  let digest := (sha1 (nsBytes ++ utf8Encode name)).take 16
  let fixed := digest.mapIdx fun i b =>
    if i = 6 then (b &&& 0x0F) ||| 0x50
    else if i = 8 then (b &&& 0x3F) ||| 0x80
    else b
  uuidFormat fixed

/-- The nil namespace `uuid.UUID("00000000-0000-0000-0000-000000000000")`
used by `_derive_case_id`: sixteen zero bytes. -/
def nilNamespaceBytes : List Nat := List.replicate 16 0

/-- Embeds `_derive_case_id` (guardian_intake.py lines 128–133). -/
def derive_case_id (signal_id : String) : String :=
  uuid5 nilNamespaceBytes ("carecase:" ++ signal_id)

/-- Embeds `build_carecase` (guardian_intake.py lines 91–125).  The timestamp read
by `now_iso()` is passed in as the `now` argument. -/
def build_carecase (signal : Signal) (now : String) : CareCase :=
  let t := signal.tension
  let gate := gate_from_tension t
  let action :=
    recommended_action gate (signal.kind.getD "") (signal.severity.getD "info")
  let base : CareCase :=
    { schema_version := "0.1"
      id := derive_case_id signal.id
      created_at := now
      system := signal.system
      policy_gate := gate
      recommended_action := action
      tension := t
      summary := signal.summary
      constraints := constraints_for signal gate
      signals := [⟨signal.id⟩]
      status := "open"
      root_cause_hypothesis := none
      proposed_transition := none }
  if signal.kind = some "web-perf" ∧
      (action = "propose_patch" ∨ action = "human_review") then
    { base with
      root_cause_hypothesis :=
        some "Potentially heavier assets or blocking scripts introduced recently."
      proposed_transition := some
        { intent := "Reduce LCP/TTFB by optimizing critical assets and deferring non-critical scripts"
          scope := "critical rendering path (hero assets, script loading)"
          reversibility := "reversible"
          verification := ["Lighthouse LCP within budget",
            "No functional regressions (smoke)"]
          trace_ref := signal.trace_ref.getD "pending" } }
  else base

/-! ### CaseStore (`write_json` and the output path of `main`) -/

/-- A flat file store: newest write first, lookup takes the first match. -/
abbrev FileStore := List (String × String)

def fsLookup (fs : FileStore) (path : String) : Option String :=
  match fs with
  | [] => none
  | (p, c) :: rest => if p = path then some c else fsLookup rest path

/-- Embeds `write_json` (guardian_intake.py lines 136–140): the file is opened in
mode `"w"`, which truncates — the new serialized data replaces whatever the
path held before, unconditionally. -/
def write_json (fs : FileStore) (path data : String) : FileStore :=
  (path, data) :: fs

/-- The output location computed in `main` (guardian_intake.py line 172):
`OUT_DIR / "carecase." + signal id + ".json"`. -/
def case_out_file (signal_id : String) : String :=
  "generated/carecase." ++ signal_id ++ ".json"

/-! ## guardian_propose_patch.py — the ProposalController -/

/-- Embeds `_is_reversible_proposal` (guardian_propose_patch.py lines 38–44).
`case.get("proposed_transition") or {}` yields a dict whose
`get("reversibility")` is `None` when the field is absent. -/
def is_reversible_proposal (case : CareCase) : Bool :=
  if case.policy_gate ≠ "green" then false
  else if case.recommended_action ≠ "propose_patch" then false
  else match case.proposed_transition with
    | none => false
    | some tr => tr.reversibility = "reversible"

/-- The state of the external git/review backend the controller mutates:
existing change-request head branches (any state), existing remote branch
names, and the committed file contents at the tip of the default branch
(what `git checkout -B branch origin/base` starts a working tree from, and
hence what `git diff --cached` compares a staged file against). -/
structure Backend where
  prs : List String
  remoteBranches : List String
  baseFiles : FileStore
deriving Repr, DecidableEq

/-- Embeds `_existing_pr` (guardian_propose_patch.py lines 47–62): a `gh pr list
--head branch --state all` query — nonempty output iff some change request
has this head branch. -/
def existing_pr (st : Backend) (branch : String) : Bool :=
  st.prs.contains branch

/-- Embeds `_remote_branch_exists` (guardian_propose_patch.py lines 65–67). -/
def remote_branch_exists (st : Backend) (branch : String) : Bool :=
  st.remoteBranches.contains branch

/-- The path of the proposal artifact written by `_write_patch_stub`
(guardian_propose_patch.py line 138). -/
def patch_stub_path (case_id : String) : String :=
  "guardian/patches/" ++ case_id ++ ".md"

/-- The markdown produced by `_write_patch_stub`
(guardian_propose_patch.py lines 143–159). -/
def patch_stub_content (case : CareCase) : String :=
  let verification := match case.proposed_transition with
    | none => []
    | some tr => tr.verification
  let checklist :=
    String.intercalate "\n" (verification.map (fun item => "- [ ] " ++ item))
  let signalLines :=
    String.intercalate "\n" (case.signals.map (fun sig => "- " ++ sig.signal_id))
  "# Guardian Patch Proposal (" ++ case.id ++ ")\n\n" ++
  "## Root cause hypothesis\n" ++
  (case.root_cause_hypothesis.getD "TBD") ++ "\n\n" ++
  "## Suggested patch steps (generic web perf)\n" ++
  "1. Audit critical rendering path (hero images, fonts, blocking scripts).\n" ++
  "2. Defer or async non-critical scripts; ensure bundles are split appropriately.\n" ++
  "3. Optimize images (proper sizing, modern formats, preload hero assets).\n" ++
  "4. Reduce server response time (cache headers, CDN, origin optimization).\n\n" ++
  "## Signals\n" ++
  (if signalLines = "" then "- (none)" else signalLines) ++ "\n\n" ++
  "## Verification checklist\n" ++
  (if checklist = "" then "- [ ] Add verification steps" else checklist) ++ "\n"

/-- Embeds `_has_staged_changes` after `_checkout_branch` (fresh tree at
`origin/base`) followed by writing the stub and `git add` of that one file:
the index differs from HEAD exactly when the base tip does not already hold
identical content at that path. -/
def has_staged_changes (st : Backend) (path content : String) : Bool :=
  fsLookup st.baseFiles path ≠ some content

/-- The backend commands in the proposal sequence of one case that run with
`check=True` (a nonzero exit raises `SystemExit`).  The best-effort
`check=False` calls (labels, comment, final checkout) cannot fail the run. -/
inductive Cmd where
  | fetch (base : String)
  | checkout (branch : String)
  | gitAdd (path : String)
  | commit (case_id : String)
  | push (branch : String)
  | prCreate (branch : String)
deriving Repr, DecidableEq

/-- Outcome injector: which backend commands fail on this run. -/
def FailSet := Cmd → Bool

/-- The per-case body of the loop in `main` (guardian_propose_patch.py lines
242–307), against backend state `st`.  Returns the new backend state and
whether this case set `created_any`; a `check=True` command failure raises
`SystemExit`, modelled as `Except.error`.  The ineligible-case `continue`,
the two existence checks and the empty-staging check all leave the backend
untouched; `git push -u` adds the remote branch and `gh pr create` adds the
change request. -/
def processCase (fails : FailSet) (st : Backend) (case : CareCase)
    (base_branch : String) : Except String (Backend × Bool) :=
  if ¬ is_reversible_proposal case then .ok (st, false)
  else
    let branch := "guardian/" ++ case.id
    if existing_pr st branch then .ok (st, false)
    else if remote_branch_exists st branch then .ok (st, false)
    else if fails (.fetch base_branch) then .error "git fetch failed"
    else if fails (.checkout branch) then .error "git checkout -B failed"
    else
      let path := patch_stub_path case.id
      let content := patch_stub_content case
      if fails (.gitAdd path) then .error "git add failed"
      else if ¬ has_staged_changes st path content then .ok (st, false)
      else if fails (.commit case.id) then .error "git commit failed"
      else if fails (.push branch) then .error "git push failed"
      else if fails (.prCreate branch) then .error "gh pr create failed"
      else
        .ok ({ st with
               prs := branch :: st.prs
               remoteBranches := branch :: st.remoteBranches }, true)

/-- The loop of `main` over the stored case list, threading `created_any`
(true once any case created a proposal); an uncaught `SystemExit` from one
case aborts the whole loop. -/
def mainLoop (fails : FailSet) (base_branch : String) :
    Backend → List CareCase → Except String (Backend × Bool)
  | st, [] => .ok (st, false)
  | st, c :: rest =>
      match processCase fails st c base_branch with
      | .error e => .error e
      | .ok (st', created) =>
          match mainLoop fails base_branch st' rest with
          | .error e => .error e
          | .ok (st'', anyCreated) => .ok (st'', created || anyCreated)

/-- The backend state after one successful proposal for head branch
`branch`: the pushed remote branch and the opened change request persist. -/
def afterProposal (st : Backend) (branch : String) : Backend :=
  { st with
    prs := branch :: st.prs
    remoteBranches := branch :: st.remoteBranches }

/-! ## guardian_validate_pr.py — the ProposalValidator -/

/-- Python strings are sequences of code points, so the string primitives
below work on `String.data`, the code-point list. -/
def strStartsWith (s pre : String) : Bool := pre.data.isPrefixOf s.data

def strEndsWith (s post : String) : Bool := post.data.isSuffixOf s.data

def strDrop (s : String) (n : Nat) : String := ⟨s.data.drop n⟩

def strDropRight (s : String) (n : Nat) : String :=
  ⟨s.data.take (s.data.length - n)⟩

/-- Substring containment (the Python test `needle in content`). -/
def strContains (hay needle : String) : Bool :=
  hay.data.tails.any (fun t => needle.data.isPrefixOf t)

/-- The regex character class `[0-9a-fA-F-]`. -/
def isHexDigitOrDash (c : Char) : Bool :=
  ('0' ≤ c && c ≤ '9') || ('a' ≤ c && c ≤ 'f') || ('A' ≤ c && c ≤ 'F') || c = '-'

/-- Embeds `_is_guardian_branch` (guardian_validate_pr.py lines 50–51). -/
def is_guardian_branch (branch : String) : Bool :=
  strStartsWith branch "guardian/"

/-- Embeds `BRANCH_RE.match(branch)` with `BRANCH_RE = ^guardian/[0-9a-fA-F-]{36}$`
(guardian_validate_pr.py line 12); the input comes from `_env`, which strips
surrounding whitespace, so `$` here is end-of-string. -/
def branch_re_matches (branch : String) : Bool :=
  strStartsWith branch "guardian/" &&
  (strDrop branch 9).data.length = 36 &&
  (strDrop branch 9).data.all isHexDigitOrDash

/-- Embeds `PATCH_RE.match(path)` with
`PATCH_RE = ^guardian/patches/([0-9a-fA-F-]{36})\.md$`
(guardian_validate_pr.py line 11), returning the captured case id. -/
def patch_re_match (path : String) : Option String :=
  let rest := strDrop path 17
  let cid := strDropRight rest 3
  if strStartsWith path "guardian/patches/" && strEndsWith rest ".md" &&
      cid.data.length = 36 && cid.data.all isHexDigitOrDash then
    some cid
  else none

/-- Embeds `_validate_patch_markdown` (guardian_validate_pr.py lines 69–92);
`read` maps a repo-relative path to its content, with `""` for a missing
file (`_read_text` returns `""` on `FileNotFoundError`).  Lower-casing is
per ASCII character, which agrees with Python on the hex-and-dash case ids
involved. -/
def validate_patch_markdown (read : String → String) (path case_id : String) :
    List String :=
  let content := read path
  if content = "" then [path ++ ": file missing or unreadable"]
  else
    let requiredSections := ["# Guardian Patch Proposal",
      "## Root cause hypothesis", "## Suggested patch steps",
      "## Verification checklist"]
    let sectionErrors := (requiredSections.filter
      (fun needle => ¬ strContains content needle)).map
      (fun needle => path ++ ": missing section marker: " ++ needle)
    let lower := fun (s : String) => String.mk (s.data.map Char.toLower)
    let idErrors :=
      if ¬ strContains (lower content) (lower case_id) then
        [path ++ ": does not mention case id " ++ case_id]
      else []
    let boxErrors :=
      if ¬ strContains content "- [ ]" then
        [path ++ ": verification checklist has no checkboxes ('- [ ] ...')"]
      else []
    sectionErrors ++ idErrors ++ boxErrors

/-- The outcome of `main` in guardian_validate_pr.py: exit 0 with no
enforcement (`skipped`), the three `SystemExit` paths, the accumulated
content-error exit, or success with the patch-file list. -/
inductive VOutcome where
  | skipped
  | branchFormatError (branch : String)
  | scopeError (offenders : List String)
  | noPatchFileError
  | contentErrors (errs : List String)
  | passed (patchFiles : List String)
deriving Repr, DecidableEq

/-- Embeds `main` (guardian_validate_pr.py lines 95–131): branch gating, branch
format, file scope, patch-file discovery, then content validation
accumulated across all patch files. -/
def validate_pr (branch : String) (files : List String)
    (read : String → String) : VOutcome :=
  if ¬ is_guardian_branch branch then .skipped
  else if ¬ branch_re_matches branch then .branchFormatError branch
  else
    let bad := files.filter (fun f => ¬ strStartsWith f "guardian/patches/")
    if bad ≠ [] then .scopeError bad
    else
      let patchFiles := files.filterMap
        (fun f => (patch_re_match f).map (fun cid => (f, cid)))
      if patchFiles = [] then .noPatchFileError
      else
        let errors := (patchFiles.map
          (fun pc => validate_patch_markdown read pc.1 pc.2)).flatten
        if errors ≠ [] then .contentErrors errors
        else .passed (patchFiles.map Prod.fst)

/-! ## Concrete fixtures used by witnesses and counterexamples -/

def exampleSystem : SystemInfo := ⟨"shop-web", "prod", "1.4.2"⟩

/-- The green end-to-end example signal of the spec (tension 0.2, web-perf,
warn). -/
def greenSignal : Signal :=
  { id := "s1", system := exampleSystem, kind := some "web-perf",
    severity := some "warn", tension := mkRat 2 10, summary := "slow LCP",
    trace_ref := none }

/-- The red rollback example of the spec: tension 0.9, web-perf, fail. -/
def redSignal : Signal :=
  { id := "s9", system := exampleSystem, kind := some "web-perf",
    severity := some "fail", tension := mkRat 9 10, summary := "LCP exploded",
    trace_ref := none }

/-- A reversible transition record, as the synthesizer emits for green
web-perf cases. -/
def transitionR : ProposedTransition :=
  { intent := "tune cache headers", scope := "edge config",
    reversibility := "reversible", verification := ["check LCP budget"],
    trace_ref := "pending" }

/-- A handwritten eligible care-case (the controller consumes any stored
JSON care-case document). -/
def caseA : CareCase :=
  { schema_version := "0.1", id := "aaaaaaaa-0000-5000-8000-000000000001",
    created_at := "2024-05-01T00:00:00Z", system := exampleSystem,
    policy_gate := "green", recommended_action := "propose_patch",
    tension := mkRat 2 10, summary := "slow LCP", constraints := [],
    signals := [⟨"s1"⟩], status := "open", root_cause_hypothesis := none,
    proposed_transition := some transitionR }

/-- A second eligible care-case with a different id. -/
def caseB : CareCase :=
  { caseA with
    id := "bbbbbbbb-0000-5000-8000-000000000002"
    signals := [⟨"s2"⟩]
    summary := "slow TTFB" }

def emptyBackend : Backend := ⟨[], [], []⟩

def noFails : FailSet := fun _ => false

/-- A backend where the checkout of the caseA branch fails. -/
def failCheckoutA : FailSet :=
  fun cmd => cmd == Cmd.checkout ("guardian/" ++ caseA.id)

/-- The care-case synthesized from the red rollback example signal. -/
def caseRed : CareCase := build_carecase redSignal "2024-05-01T00:00:00Z"

/-- Reference definition taken from the words of the spec: `case_id =
UUIDv5(fixed_nil_namespace, "carecase:" + signal.id)` where the fixed
namespace is the nil UUID 00000000-0000-0000-0000-000000000000 (sixteen
zero bytes). -/
def case_id_spec_reference (signal_id : String) : String :=
  uuid5 (List.replicate 16 0) ("carecase:" ++ signal_id)

/-- Decides the character class `[0-9a-fA-F]`. -/
def isHexDigitChar (c : Char) : Bool :=
  ('0' ≤ c && c ≤ '9') || ('a' ≤ c && c ≤ 'f') || ('A' ≤ c && c ≤ 'F')

/-- The character shape of a canonical textual UUID: 8-4-4-4-12 hex
groups; `true` marks a dash position. -/
def uuidMask : List Bool :=
  List.replicate 8 false ++ [true] ++ List.replicate 4 false ++ [true] ++
    List.replicate 4 false ++ [true] ++ List.replicate 4 false ++ [true] ++
    List.replicate 12 false

/-- Checks a character list against a shape mask. -/
def matchesMask : List Bool → List Char → Bool
  | [], [] => true
  | true :: m, c :: cs => c == '-' && matchesMask m cs
  | false :: m, c :: cs => isHexDigitChar c && matchesMask m cs
  | _, _ => false

/-- A canonical textual UUID in the 8-4-4-4-12 hex format — what the term
`<uuid>` of the spec denotes. -/
def isCanonicalUuid (s : String) : Bool :=
  matchesMask uuidMask s.data

/-- A head branch whose identifier part is 36 hex characters but not a
UUID (no dashes at the group positions). -/
def allHexBranch : String := "guardian/aaaaaaaaaaaaaaaaaaaaaaaaaaaaaaaaaaaa"

/-- The case id derived from signal id "s1". -/
def cid0 : String := "1da0e7d7-96f1-5247-9f6d-ae2b63400b17"

def patchPath0 : String := "guardian/patches/" ++ cid0 ++ ".md"

/-- A patch file missing its root-cause section: one content violation. -/
def patchMissingSection : String :=
  "# Guardian Patch Proposal (" ++ cid0 ++
  ")\n\n## Suggested patch steps\n1. x\n\n## Verification checklist\n- [ ] check\n"

/-- A fully well-formed patch file for `cid0`. -/
def patchGood : String :=
  "# Guardian Patch Proposal (" ++ cid0 ++
  ")\n\n## Root cause hypothesis\nTBD\n\n## Suggested patch steps\n1. x\n\n" ++
  "## Verification checklist\n- [ ] check\n"

/-- A one-file repository view serving `content` at the patch path. -/
def readStore (content : String) : String → String :=
  fun p => if p = patchPath0 then content else ""

/-! ## Helper lemmas on the synthesizer -/

theorem build_carecase_policy_gate (s : Signal) (now : String) :
    (build_carecase s now).policy_gate = gate_from_tension s.tension := by
  unfold build_carecase
  dsimp only
  split_ifs <;> rfl

theorem build_carecase_recommended_action (s : Signal) (now : String) :
    (build_carecase s now).recommended_action =
      recommended_action (gate_from_tension s.tension) (s.kind.getD "")
        (s.severity.getD "info") := by
  unfold build_carecase
  dsimp only
  split_ifs <;> rfl

theorem build_carecase_id (s : Signal) (now : String) :
    (build_carecase s now).id = derive_case_id s.id := by
  unfold build_carecase
  dsimp only
  split_ifs <;> rfl

/-! ## C2 — gate classification bands -/

/-- C2: for every tension value `t`, the gate is green when `t < 0.40`,
yellow when `0.40 ≤ t < 0.75`, red when `t ≥ 0.75`; the boundary inputs
0.40 and 0.75 classify as yellow and red. -/
theorem gate_from_tension_bands (t : ℚ) :
    (t < 40/100 → gate_from_tension t = "green") ∧
    (40/100 ≤ t → t < 75/100 → gate_from_tension t = "yellow") ∧
    (75/100 ≤ t → gate_from_tension t = "red") ∧
    gate_from_tension (40/100) = "yellow" ∧
    gate_from_tension (75/100) = "red" := by
  have h40 : (mkRat 40 100 : ℚ) = 40/100 := by norm_num [mkRat, Rat.normalize]
  have h75 : (mkRat 75 100 : ℚ) = 75/100 := by norm_num [mkRat, Rat.normalize]
  unfold gate_from_tension
  simp only [h40, h75]
  refine ⟨fun h => by rw [if_pos h], fun h1 h2 => ?_, fun h => ?_, ?_, ?_⟩
  · rw [if_neg (not_lt.mpr h1), if_pos h2]
  · rw [if_neg (not_lt.mpr (le_trans (by norm_num) h)),
      if_neg (not_lt.mpr h)]
  · norm_num
  · norm_num

/-- Witness for C2 at tensions 0.1, 0.5 and 0.9. -/
theorem gate_from_tension_bands_witness :
    gate_from_tension (1/10) = "green" ∧
    gate_from_tension (1/2) = "yellow" ∧
    gate_from_tension (9/10) = "red" :=
  ⟨(gate_from_tension_bands (1/10)).1 (by norm_num),
   (gate_from_tension_bands (1/2)).2.1 (by norm_num) (by norm_num),
   (gate_from_tension_bands (9/10)).2.2.1 (by norm_num)⟩

/-! ## C3 — recommended action -/

/-- C3: the recommended action is rollback iff gate = red ∧ kind = web-perf
∧ severity = fail, propose_patch iff gate = green, and human_review in
every remaining case. -/
theorem recommended_action_cases (gate kind severity : String) :
    (recommended_action gate kind severity = "rollback" ↔
      gate = "red" ∧ kind = "web-perf" ∧ severity = "fail") ∧
    (recommended_action gate kind severity = "propose_patch" ↔
      gate = "green") ∧
    (gate ≠ "green" →
      ¬(gate = "red" ∧ kind = "web-perf" ∧ severity = "fail") →
      recommended_action gate kind severity = "human_review") := by
  unfold recommended_action
  split_ifs with h1 h2
  · subst h1
    refine ⟨?_, iff_of_true rfl rfl, fun hne _ => absurd rfl hne⟩
    constructor
    · intro h; exact absurd h (by decide)
    · rintro ⟨hr, -, -⟩; exact absurd hr (by decide)
  · obtain ⟨hr, hk, hs⟩ := h2
    refine ⟨iff_of_true rfl ⟨hr, hk, hs⟩, ?_, fun _ hne => absurd ⟨hr, hk, hs⟩ hne⟩
    constructor
    · intro h; exact absurd h (by decide)
    · intro hg; rw [hg] at hr; exact absurd hr (by decide)
  · refine ⟨?_, ?_, fun _ _ => rfl⟩
    · constructor
      · intro h; exact absurd h (by decide)
      · intro h; exact absurd h h2
    · constructor
      · intro h; exact absurd h (by decide)
      · intro h; exact absurd h h1

/-- Witness for C3: a yellow web-perf failure is routed to human review. -/
theorem recommended_action_cases_witness :
    recommended_action "yellow" "web-perf" "fail" = "human_review" :=
  (recommended_action_cases "yellow" "web-perf" "fail").2.2 (by decide)
    (by decide)

/-! ## C10 — one signal reference per care-case -/

/-- C10: every synthesized care-case carries exactly the one reference
`{"signal_id": signal.id}` in its `signals` list. -/
theorem carecase_signals_single (signal : Signal) (now : String) :
    (build_carecase signal now).signals = [{ signal_id := signal.id }] ∧
    (build_carecase signal now).signals.length = 1 := by
  unfold build_carecase
  dsimp only
  split_ifs <;> exact ⟨rfl, rfl⟩

/-! ## C4 — stable case-id derivation -/

/-- C4: case-id derivation equals the UUIDv5 reference definition, and two
synthesis runs over signals with the same `id` (any other fields and
timestamps) yield the same `case.id`. -/
theorem derive_case_id_stable :
    (∀ signal_id, derive_case_id signal_id = case_id_spec_reference signal_id) ∧
    (∀ (s₁ s₂ : Signal) (t₁ t₂ : String), s₁.id = s₂.id →
      (build_carecase s₁ t₁).id = (build_carecase s₂ t₂).id) := by
  refine ⟨fun _ => rfl, fun s₁ s₂ t₁ t₂ h => ?_⟩
  rw [build_carecase_id, build_carecase_id, h]

set_option maxRecDepth 100000 in
/-- Witness for C4: two runs over distinct signal documents sharing
id "s1" produce one case id, and that id is the UUIDv5 value
1da0e7d7-96f1-5247-9f6d-ae2b63400b17 (cross-checked against the Python
`uuid` module). -/
theorem derive_case_id_stable_witness :
    (build_carecase greenSignal "2024-05-01T00:00:00Z").id =
      (build_carecase { greenSignal with
        severity := some "info"
        tension := mkRat 1 10
        summary := "other run" } "2025-01-01T09:30:00Z").id ∧
    derive_case_id "s1" = "1da0e7d7-96f1-5247-9f6d-ae2b63400b17" :=
  ⟨derive_case_id_stable.2 _ _ _ _ rfl, by decide⟩

/-! ## C5 — eligibility predicate and skip-without-side-effects -/

/-- C5: a care-case is eligible iff its gate is green, its action is
propose_patch, and its proposed transition is declared reversible; an
ineligible case is skipped with no backend mutation; in particular the red
rollback example case (tension 0.9, web-perf, fail) is never proposed. -/
theorem eligibility_predicate (c : CareCase) (fails : FailSet) (st : Backend)
    (base now : String) :
    (is_reversible_proposal c = true ↔
      (c.policy_gate = "green" ∧ c.recommended_action = "propose_patch" ∧
        ∃ tr, c.proposed_transition = some tr ∧
          tr.reversibility = "reversible")) ∧
    (is_reversible_proposal c = false →
      processCase fails st c base = .ok (st, false)) ∧
    ((build_carecase redSignal now).policy_gate = "red" ∧
      (build_carecase redSignal now).recommended_action = "rollback" ∧
      is_reversible_proposal (build_carecase redSignal now) = false ∧
      processCase fails st (build_carecase redSignal now) base =
        .ok (st, false)) := by
  have hiff : ∀ c' : CareCase, is_reversible_proposal c' = true ↔
      (c'.policy_gate = "green" ∧ c'.recommended_action = "propose_patch" ∧
        ∃ tr, c'.proposed_transition = some tr ∧
          tr.reversibility = "reversible") := by
    intro c'
    unfold is_reversible_proposal
    split_ifs with h1 h2
    · simp only [Bool.false_eq_true, false_iff]
      rintro ⟨hg, -, -⟩
      exact h1 hg
    · simp only [Bool.false_eq_true, false_iff]
      rintro ⟨-, ha, -⟩
      exact h2 ha
    · rcases htr : c'.proposed_transition with _ | tr
      · simp only [htr, Bool.false_eq_true, false_iff]
        rintro ⟨-, -, tr2, htr2, -⟩
        exact Option.noConfusion htr2
      · simp only [htr]
        constructor
        · intro h
          exact ⟨not_not.mp h1, not_not.mp h2, tr, rfl, of_decide_eq_true h⟩
        · rintro ⟨-, -, tr2, htr2, hrev⟩
          obtain rfl := Option.some.inj htr2
          exact decide_eq_true hrev
  have hskip : ∀ c' : CareCase, is_reversible_proposal c' = false →
      processCase fails st c' base = .ok (st, false) := by
    intro c' h
    unfold processCase
    rw [if_pos (by simp [h])]
  have hred1 : (build_carecase redSignal now).policy_gate = "red" := by
    rw [build_carecase_policy_gate]
    decide
  have hred2 : (build_carecase redSignal now).recommended_action =
      "rollback" := by
    rw [build_carecase_recommended_action]
    decide
  have hred3 : is_reversible_proposal (build_carecase redSignal now) =
      false := by
    cases hb : is_reversible_proposal (build_carecase redSignal now)
    · rfl
    · obtain ⟨-, ha, -⟩ := (hiff _).mp hb
      rw [hred2] at ha
      exact absurd ha (by decide)
  exact ⟨hiff c, hskip c, hred1, hred2, hred3, hskip _ hred3⟩

set_option maxRecDepth 400000 in
/-- Witness for C5: the concrete red-gate rollback case is skipped by the
controller with no mutation of an empty backend. -/
theorem eligibility_predicate_witness :
    processCase noFails emptyBackend caseRed "main" =
      .ok (emptyBackend, false) :=
  (eligibility_predicate caseRed noFails emptyBackend "main"
    "2024-05-01T00:00:00Z").2.1 (by decide)

/-! ## C7 — the case store overwrites on re-persist (corrected) -/

/-- Counterexample to C7 as stated: when a record with content
"old-record" already exists at the output location for signal id "s1",
re-running persistence replaces it — the previously stored content is not
left unchanged. -/
theorem write_json_overwrites :
    fsLookup
      (write_json [(case_out_file "s1", "old-record")]
        (case_out_file "s1") "new-record")
      (case_out_file "s1") = some "new-record" ∧
    fsLookup [(case_out_file "s1", "old-record")] (case_out_file "s1") =
      some "old-record" ∧
    ("new-record" : String) ≠ "old-record" := by
  refine ⟨?_, ?_, by decide⟩ <;> simp [write_json, fsLookup]

/-- C7 amended: re-running persistence on the same signal id writes to the
same deterministic output location; `write_json` replaces whatever that
location held (mode "w", no existence check) and leaves every other
location unchanged. -/
theorem case_store_write_behavior (fs : FileStore) (sid data q : String)
    (hq : q ≠ case_out_file sid) :
    fsLookup (write_json fs (case_out_file sid) data) (case_out_file sid) =
      some data ∧
    fsLookup (write_json fs (case_out_file sid) data) q = fsLookup fs q := by
  constructor
  · simp [write_json, fsLookup]
  · show (if case_out_file sid = q then some data else fsLookup fs q) =
      fsLookup fs q
    exact if_neg (fun h => hq h.symm)

/-- Witness for C7 amended at signal id "s1" against a store holding an
old record for "s1" and an unrelated record that stays untouched. -/
theorem case_store_write_behavior_witness :
    fsLookup
      (write_json [(case_out_file "s1", "old-record"),
        (case_out_file "s7", "other-record")] (case_out_file "s1") "new-record")
      (case_out_file "s1") = some "new-record" ∧
    fsLookup
      (write_json [(case_out_file "s1", "old-record"),
        (case_out_file "s7", "other-record")] (case_out_file "s1") "new-record")
      (case_out_file "s7") =
      fsLookup [(case_out_file "s1", "old-record"),
        (case_out_file "s7", "other-record")] (case_out_file "s7") :=
  case_store_write_behavior
    [(case_out_file "s1", "old-record"), (case_out_file "s7", "other-record")]
    "s1" "new-record" (case_out_file "s7") (by decide)

/-! ## C8 — branch gating in the validator (corrected) -/

theorem matchesMask_shape : ∀ (m : List Bool) (cs : List Char),
    matchesMask m cs = true →
    cs.length = m.length ∧ cs.all isHexDigitOrDash = true := by
  intro m
  induction m with
  | nil =>
      intro cs h
      cases cs with
      | nil => exact ⟨rfl, rfl⟩
      | cons c cs' => exact Bool.noConfusion h
  | cons b m ih =>
      intro cs h
      cases cs with
      | nil => cases b <;> exact Bool.noConfusion h
      | cons c cs' =>
          cases b with
          | true =>
              simp only [matchesMask, Bool.and_eq_true] at h
              obtain ⟨h1, h2⟩ := h
              obtain ⟨hl, ha⟩ := ih cs' h2
              refine ⟨by simp [hl], ?_⟩
              have hc : isHexDigitOrDash c = true := by
                have : c = '-' := by simpa using h1
                rw [this]
                decide
              simp [List.all_cons, hc, ha]
          | false =>
              simp only [matchesMask, Bool.and_eq_true] at h
              obtain ⟨h1, h2⟩ := h
              obtain ⟨hl, ha⟩ := ih cs' h2
              refine ⟨by simp [hl], ?_⟩
              have hc : isHexDigitOrDash c = true := by
                unfold isHexDigitOrDash
                unfold isHexDigitChar at h1
                simp only [Bool.or_eq_true] at h1 ⊢
                tauto
              simp [List.all_cons, hc, ha]

theorem isPrefixOf_append_self (l₁ l₂ : List Char) :
    l₁.isPrefixOf (l₁ ++ l₂) = true := by
  simp [List.isPrefixOf_iff_prefix]

/-- C8 amended: a non-guardian head branch gets no enforcement and the run
exits successfully; a guardian-prefixed branch is rejected as an immediate
hard failure exactly when it fails BRANCH_RE — 36 characters drawn from
hex digits and dashes after the prefix — a pattern that every canonical
`guardian/<uuid>` branch satisfies but that also admits some non-UUID
identifiers. -/
theorem branch_gating (branch : String) (files : List String)
    (read : String → String) :
    (is_guardian_branch branch = false →
      validate_pr branch files read = .skipped) ∧
    (is_guardian_branch branch = true → branch_re_matches branch = false →
      validate_pr branch files read = .branchFormatError branch) ∧
    (∀ u, isCanonicalUuid u = true →
      branch_re_matches ("guardian/" ++ u) = true) := by
  refine ⟨fun h => ?_, fun hg hm => ?_, fun u hu => ?_⟩
  · unfold validate_pr
    rw [if_pos (by simp [h])]
  · unfold validate_pr
    rw [if_neg (by simp [hg]), if_pos (by simp [hm])]
  · obtain ⟨hlen, hall⟩ := matchesMask_shape uuidMask u.data hu
    have hdata : ("guardian/" ++ u).data = "guardian/".data ++ u.data :=
      String.data_append _ _
    have hdrop : (strDrop ("guardian/" ++ u) 9).data = u.data := by
      show (("guardian/" ++ u).data.drop 9) = u.data
      rw [hdata]
      have h9 : ("guardian/" : String).data.length = 9 := rfl
      rw [← h9, List.drop_left]
    unfold branch_re_matches
    rw [hdrop]
    have hpre : strStartsWith ("guardian/" ++ u) "guardian/" = true := by
      unfold strStartsWith
      rw [hdata]
      exact isPrefixOf_append_self _ _
    rw [hpre]
    have h36 : u.data.length = 36 := by
      rw [hlen]
      decide
    simp [h36, hall]

/-- Counterexample to C8 as stated: the branch made of "guardian/" and 36
letters "a" does not conform to `guardian/<uuid>`, yet the validator does
not reject it — with a well-formed patch file the request passes
validation end to end. -/
theorem branch_gating_counterexample :
    is_guardian_branch allHexBranch = true ∧
    isCanonicalUuid (strDrop allHexBranch 9) = false ∧
    branch_re_matches allHexBranch = true ∧
    validate_pr allHexBranch [patchPath0] (readStore patchGood) =
      .passed [patchPath0] := by decide

/-- Witness for C8 amended: an unrelated feature branch is skipped, and a
guardian-prefixed branch with a short identifier is a hard failure. -/
theorem branch_gating_witness :
    validate_pr "feature/tune-cache" ["src/app.py"] (fun _ => "") =
      .skipped ∧
    validate_pr "guardian/short" ["guardian/patches/x.md"] (fun _ => "") =
      .branchFormatError "guardian/short" :=
  ⟨(branch_gating "feature/tune-cache" ["src/app.py"] (fun _ => "")).1
      (by decide),
   (branch_gating "guardian/short" ["guardian/patches/x.md"]
      (fun _ => "")).2.1 (by decide) (by decide)⟩

/-! ## C1 — idempotent proposal lifecycle -/

/-- C1: for an eligible care-case against a backend holding neither a
change request nor a remote branch for it, one run creates exactly one
remote branch and one change request; a second run against the persisted
backend state is skipped by the existing-change-request check and mutates
nothing. -/
theorem proposal_idempotent (fails : FailSet) (st : Backend) (c : CareCase)
    (base : String)
    (hok : ∀ cmd, fails cmd = false)
    (helig : is_reversible_proposal c = true)
    (hpr : st.prs.count ("guardian/" ++ c.id) = 0)
    (hbr : st.remoteBranches.count ("guardian/" ++ c.id) = 0)
    (hstage : fsLookup st.baseFiles (patch_stub_path c.id) ≠
      some (patch_stub_content c)) :
    processCase fails st c base =
      .ok (afterProposal st ("guardian/" ++ c.id), true) ∧
    (afterProposal st ("guardian/" ++ c.id)).prs.count
      ("guardian/" ++ c.id) = 1 ∧
    (afterProposal st ("guardian/" ++ c.id)).remoteBranches.count
      ("guardian/" ++ c.id) = 1 ∧
    processCase fails (afterProposal st ("guardian/" ++ c.id)) c base =
      .ok (afterProposal st ("guardian/" ++ c.id), false) := by
  have hprF : existing_pr st ("guardian/" ++ c.id) = false := by
    unfold existing_pr
    simp [List.count_eq_zero.mp hpr]
  have hbrF : remote_branch_exists st ("guardian/" ++ c.id) = false := by
    unfold remote_branch_exists
    simp [List.count_eq_zero.mp hbr]
  have hstageT : has_staged_changes st (patch_stub_path c.id)
      (patch_stub_content c) = true := decide_eq_true hstage
  refine ⟨?_, ?_, ?_, ?_⟩
  · unfold processCase
    dsimp only
    rw [if_neg (by simp [helig]), if_neg (by simp [hprF]),
      if_neg (by simp [hbrF]), if_neg (by simp [hok]),
      if_neg (by simp [hok]), if_neg (by simp [hok]),
      if_neg (by simp [hstageT]), if_neg (by simp [hok]),
      if_neg (by simp [hok]), if_neg (by simp [hok])]
    rfl
  · unfold afterProposal
    simp [List.count_cons_self, hpr]
  · unfold afterProposal
    simp [List.count_cons_self, hbr]
  · unfold processCase
    dsimp only
    rw [if_neg (by simp [helig]), if_pos (by simp [existing_pr, afterProposal])]

/-! ## C6 — failure policy of the controller loop (corrected) -/

set_option maxRecDepth 400000 in
/-- Witness for C1: the eligible caseA against an empty backend — the
first run creates branch and change request exactly once; the rerun is a
no-op returning the same state. -/
theorem proposal_idempotent_witness :
    processCase noFails emptyBackend caseA "main" =
      .ok (afterProposal emptyBackend ("guardian/" ++ caseA.id), true) ∧
    (afterProposal emptyBackend ("guardian/" ++ caseA.id)).prs.count
      ("guardian/" ++ caseA.id) = 1 ∧
    (afterProposal emptyBackend ("guardian/" ++ caseA.id)).remoteBranches.count
      ("guardian/" ++ caseA.id) = 1 ∧
    processCase noFails (afterProposal emptyBackend ("guardian/" ++ caseA.id))
      caseA "main" =
      .ok (afterProposal emptyBackend ("guardian/" ++ caseA.id), false) :=
  proposal_idempotent noFails emptyBackend caseA "main" (fun _ => rfl)
    (by decide) (by decide) (by decide) (by decide)

/-- C6 amended: an unexpected backend-command failure while processing one
eligible case aborts the whole run — the `SystemExit` propagates, the
remaining cases are never processed, and no created-proposal report is
produced. -/
theorem backend_failure_aborts_run (fails : FailSet) (st : Backend)
    (c : CareCase) (rest : List CareCase) (base msg : String)
    (herr : processCase fails st c base = .error msg) :
    mainLoop fails base st (c :: rest) = .error msg := by
  unfold mainLoop
  rw [herr]

set_option maxRecDepth 400000 in
/-- Counterexample to C6 as stated: the checkout failure on caseA aborts
the whole run before caseB — which alone would have created a proposal —
is ever processed. -/
theorem backend_failure_counterexample :
    mainLoop failCheckoutA "main" emptyBackend [caseA, caseB] =
      .error "git checkout -B failed" ∧
    processCase failCheckoutA emptyBackend caseB "main" =
      .ok (afterProposal emptyBackend ("guardian/" ++ caseB.id), true) :=
  ⟨rfl, rfl⟩

set_option maxRecDepth 400000 in
/-- Witness for C6 amended at the concrete failing run. -/
theorem backend_failure_aborts_run_witness :
    mainLoop failCheckoutA "main" emptyBackend [caseA, caseB] =
      .error "git checkout -B failed" :=
  backend_failure_aborts_run failCheckoutA emptyBackend caseA [caseB] "main"
    "git checkout -B failed" rfl

/-! ## C9 — scope enforcement and violation accumulation (corrected) -/

/-- C9 amended: a change request touching any file outside the patches
directory is rejected even when a valid patch file is also present, and
the scope-failure report names every out-of-scope path; content
violations are accumulated across all patch files into one report, but
only in the later content stage, which is reached only when every changed
file lies inside the patches directory. -/
theorem scope_and_content_reports (branch : String) (files : List String)
    (read : String → String) :
    (∀ f, is_guardian_branch branch = true → branch_re_matches branch = true →
      f ∈ files → strStartsWith f "guardian/patches/" = false →
      ∃ offenders, validate_pr branch files read = .scopeError offenders ∧
        ∀ g, g ∈ files → strStartsWith g "guardian/patches/" = false →
          g ∈ offenders) ∧
    (∀ errs p cid, validate_pr branch files read = .contentErrors errs →
      (p, cid) ∈ files.filterMap
        (fun f => (patch_re_match f).map (fun c => (f, c))) →
      ∀ e, e ∈ validate_patch_markdown read p cid → e ∈ errs) := by
  constructor
  · intro f hg hm hf hbad
    unfold validate_pr
    rw [if_neg (by simp [hg]), if_neg (by simp [hm])]
    dsimp only
    have hfbad : f ∈ files.filter
        (fun x => ¬ strStartsWith x "guardian/patches/") := by
      rw [List.mem_filter]
      exact ⟨hf, by simp [hbad]⟩
    rw [if_pos (List.ne_nil_of_mem hfbad)]
    refine ⟨_, rfl, fun g hgmem hgbad => ?_⟩
    rw [List.mem_filter]
    exact ⟨hgmem, by simp [hgbad]⟩
  · intro errs p cid hres hmem e he
    unfold validate_pr at hres
    split_ifs at hres
    dsimp only at hres
    split_ifs at hres
    obtain rfl := (VOutcome.contentErrors.injEq _ _).mp hres
    exact List.mem_flatten.mpr ⟨validate_patch_markdown read p cid,
      List.mem_map_of_mem _ hmem, he⟩

set_option maxRecDepth 400000 in
/-- Counterexample to C9 as stated: with one out-of-scope file and one
patch file carrying a content violation, the failure report names only
the out-of-scope path — the content violation of the patch file is
absent, because scope failure short-circuits before content validation. -/
theorem scope_gate_counterexample :
    validate_pr ("guardian/" ++ cid0) [patchPath0, "src/evil.py"]
      (readStore patchMissingSection) = .scopeError ["src/evil.py"] ∧
    validate_patch_markdown (readStore patchMissingSection) patchPath0 cid0 =
      [patchPath0 ++ ": missing section marker: ## Root cause hypothesis"] :=
  ⟨by decide, by decide⟩

set_option maxRecDepth 400000 in
/-- Witness for C9 amended: an out-of-scope request with a valid patch
file present is rejected with the complete offender list. -/
theorem scope_and_content_reports_witness :
    ∃ offenders,
      validate_pr ("guardian/" ++ cid0) [patchPath0, "src/evil.py"]
        (readStore patchGood) = .scopeError offenders ∧
      ∀ g, g ∈ [patchPath0, "src/evil.py"] →
        strStartsWith g "guardian/patches/" = false → g ∈ offenders :=
  (scope_and_content_reports ("guardian/" ++ cid0)
      [patchPath0, "src/evil.py"] (readStore patchGood)).1 "src/evil.py"
      (by decide) (by decide) (by decide) (by decide)

end Guardian
